import Mathlib

/-!
Verification of the position-monitoring and copy-trading core of a
Polymarket account-tracking bot.

The development shallowly embeds the TypeScript source:

* JavaScript numbers are modelled as rationals; NaN is modelled explicitly
  as `none` in `Option ℚ` (every arithmetic step and comparison involving
  NaN is spelled out, since JS comparisons with NaN are always false).
* Numeric string fields of normalized records (quantity, price, value,
  total value) are modelled by their `parseFloat` semantics: the rational
  the string parses to, or `none` when it parses to NaN.  All downstream
  consumers in the source read these fields exclusively through
  `parseFloat`, so this abstraction is faithful.
* Untyped upstream JSON scalars are modelled by `JVal` with the JS
  truthiness, `parseFloat` and `ToNumber` coercions implemented on it.
* Asynchronous calls that can reject (the data-source fetch, the order
  gateway, credential initialization) are modelled as `Except` values
  passed in as parameters; observer callbacks are modelled by whether they
  throw, and their invocations are recorded as events.
* Market metadata and timestamps are display-only in the source (never
  read by change detection or trade execution), so they are carried as
  plain strings or omitted.
-/

/-! ## JavaScript value model -/

/-- Untyped JavaScript scalar as it arrives from upstream JSON: `undefined`,
`null`, a number, or a string. -/
inductive JVal where
  | undefined : JVal
  | jsNull : JVal
  | num : ℚ → JVal
  | str : String → JVal
deriving Repr, DecidableEq

/-- JS truthiness: `undefined`, `null`, `0` and the empty string are falsy. -/
def jsTruthy : JVal → Bool
  | .undefined => false
  | .jsNull => false
  | .num q => q != 0
  | .str s => s != ""

/-- The JS `a || b` fallback idiom. -/
def jsOr (a b : JVal) : JVal := if jsTruthy a then a else b

/-- Digits of a character run, most significant first. -/
def takeDigits : List Char → List ℕ × List Char
  | [] => ([], [])
  | c :: cs =>
    if c.isDigit then
      let r := takeDigits cs
      ((c.toNat - 48) :: r.1, r.2)
    else ([], c :: cs)

/-- Value of a digit list read as a base-10 natural number. -/
def digitsToNat (ds : List ℕ) : ℕ := ds.foldl (fun a d => 10 * a + d) 0

/-- Value of a digit list read as a base-10 fraction (digits after the dot). -/
def fracOfDigits (ds : List ℕ) : ℚ := (digitsToNat ds : ℚ) / (10 : ℚ) ^ ds.length

/-- Whitespace skipped by the JS string-to-number conversions. -/
def jsSpace (c : Char) : Bool := c = ' ' || c = '\t' || c = '\n' || c = '\r'

/-- Exponent suffix of a decimal literal; `0` when absent or malformed
(`parseFloat` stops before a malformed exponent). -/
def parseExponent (cs : List Char) : ℤ :=
  match cs with
  | 'e' :: rest | 'E' :: rest =>
    let sr : ℤ × List Char :=
      match rest with
      | '-' :: r => (-1, r)
      | '+' :: r => (1, r)
      | _ => (1, rest)
    let dr := takeDigits sr.2
    if dr.1 = [] then 0 else sr.1 * (digitsToNat dr.1 : ℤ)
  | _ => 0

/-- The JS `parseFloat` on a string: skip leading whitespace, read an
optional sign and the longest decimal-literal prefix, ignore trailing
garbage; NaN (`none`) when no digit is found. -/
def strParseFloat (s : String) : Option ℚ :=
  let cs := s.toList.dropWhile jsSpace
  let sc : ℚ × List Char :=
    match cs with
    | '-' :: r => (-1, r)
    | '+' :: r => (1, r)
    | _ => (1, cs)
  let ir := takeDigits sc.2
  let fr : List ℕ × List Char :=
    match ir.2 with
    | '.' :: r => takeDigits r
    | _ => ([], ir.2)
  if ir.1 = [] ∧ fr.1 = [] then none
  else some (sc.1 * ((digitsToNat ir.1 : ℚ) + fracOfDigits fr.1) * (10 : ℚ) ^ parseExponent fr.2)

/-- The ECMAScript `ToNumber` coercion on a string: trimmed empty string is
`0`, otherwise the whole trimmed string must be a decimal literal. -/
def strToNumber (s : String) : Option ℚ :=
  let cs := ((s.toList.dropWhile jsSpace).reverse.dropWhile jsSpace).reverse
  if cs = [] then some 0
  else
    let sc : ℚ × List Char :=
      match cs with
      | '-' :: r => (-1, r)
      | '+' :: r => (1, r)
      | _ => (1, cs)
    let ir := takeDigits sc.2
    let fr : List ℕ × List Char :=
      match ir.2 with
      | '.' :: r => takeDigits r
      | _ => ([], ir.2)
    if ir.1 = [] ∧ fr.1 = [] then none
    else
      match fr.2 with
      | [] => some (sc.1 * ((digitsToNat ir.1 : ℚ) + fracOfDigits fr.1))
      | 'e' :: r | 'E' :: r =>
        let esr : ℤ × List Char :=
          match r with
          | '-' :: t => (-1, t)
          | '+' :: t => (1, t)
          | _ => (1, r)
        let edr := takeDigits esr.2
        if edr.1 = [] ∨ edr.2 ≠ [] then none
        else some (sc.1 * ((digitsToNat ir.1 : ℚ) + fracOfDigits fr.1) *
          (10 : ℚ) ^ (esr.1 * (digitsToNat edr.1 : ℤ)))
      | _ => none

/-- The JS `parseFloat` applied to a scalar (after implicit string
conversion): numbers pass through, `undefined` and `null` give NaN. -/
def jsParseFloat : JVal → Option ℚ
  | .num q => some q
  | .str s => strParseFloat s
  | .undefined => none
  | .jsNull => none

/-- The ECMAScript `ToNumber` coercion on a scalar (used by `>` on mixed
operands): `null` is `0`, `undefined` is NaN. -/
def jsToNumber : JVal → Option ℚ
  | .num q => some q
  | .str s => strToNumber s
  | .undefined => none
  | .jsNull => some 0

/-- NaN-propagating multiplication of JS numbers. -/
def qmulN : Option ℚ → Option ℚ → Option ℚ
  | some a, some b => some (a * b)
  | _, _ => none

/-- The JS comparison `0 < a`; false when `a` is NaN. -/
def nGtZero : Option ℚ → Bool
  | some q => decide (0 < q)
  | none => false

/-- The JS comparison `a < b` with a NaN-able left operand. -/
def nLt (a : Option ℚ) (b : ℚ) : Bool :=
  match a with
  | some x => decide (x < b)
  | none => false

/-- The JS comparison `b < a` where `a` may be NaN and `b` may be the
`Infinity` default of an unset bound (modelled as `none`). -/
def nGtOpt (a b : Option ℚ) : Bool :=
  match a, b with
  | some x, some y => decide (y < x)
  | _, _ => false

/-- Numeric value of `x.toFixed(d)` for `x ≥ 0`: round half towards
positive infinity at `d` decimal places. -/
def fixRound (d : ℕ) (q : ℚ) : ℚ := (⌊q * 10 ^ d + 1 / 2⌋ : ℚ) / 10 ^ d

/-- Numeric value of the JS `x.toFixed(d)` string (ECMAScript applies the
rounding to `|x|` and prepends the sign). -/
def jsToFixed (d : ℕ) (q : ℚ) : ℚ := if q < 0 then -(fixRound d (-q)) else fixRound d q

/-- The JS `x.toFixed(d)` by parse semantics, propagating NaN
(`NaN.toFixed(d)` is the string "NaN", which parses back to NaN). -/
def jsToFixedN (d : ℕ) : Option ℚ → Option ℚ := Option.map (jsToFixed d)

/-- Exactly `d` fraction digits of a natural number `m < 10 ^ d`, most
significant first. -/
def fracDigitsStr (d : ℕ) (m : ℕ) : String :=
  String.mk ((List.range d).map (fun k => Nat.digitChar (m / 10 ^ (d - 1 - k) % 10)))

/-- Rendering of `q.toFixed(d)` for `q ≥ 0`. -/
def fixedRender (d : ℕ) (q : ℚ) : String :=
  let n := (⌊q * 10 ^ d + 1 / 2⌋).toNat
  toString (n / 10 ^ d) ++ "." ++ fracDigitsStr d (n % 10 ^ d)

/-- String produced by the JS `q.toFixed(d)`. -/
def jsToFixedStr (d : ℕ) (q : ℚ) : String :=
  if q < 0 then "-" ++ fixedRender d (-q) else fixedRender d q

/-! ## Data model (src/types.ts)

A normalized `Position` as produced by `PolymarketClient.normalizePositions`.
The `quantity`, `price` and `value` fields are strings in the source and are
modelled by their `parseFloat` value; `initialValue` is an optional string
(outer `Option` is field presence, inner is parse semantics).  The `market`
object and the timestamp are display-only and carried as opaque strings. -/

structure Position where
  id : String
  outcome : String
  quantity : Option ℚ
  price : Option ℚ
  value : Option ℚ
  initialValue : Option (Option ℚ)
  timestamp : String
deriving Repr, DecidableEq

/-- Result of `PolymarketClient.getUserPositions` (the data-source fetch).
`totalValue` is a numeric string modelled by parse semantics. -/
structure UserPositions where
  user : String
  positions : List Position
  totalValue : Option ℚ
  timestamp : String
deriving Repr, DecidableEq

/-- The monitor snapshot (`TradingStatus` in the source).  `recentTrades`
is always the empty list in the source and is omitted. -/
structure TradingStatus where
  user : String
  totalPositions : ℕ
  totalValue : Option ℚ
  openPositions : List Position
  lastUpdated : String
deriving Repr, DecidableEq

/-! ## Account monitor (src/monitor/account-monitor.ts) -/

/-- Materiality test for a per-position quantity change
(`Math.abs(currentQty - lastQty) > Math.max(1, lastQty * 0.01)`); any NaN
operand makes the JS comparison false. -/
def materialQtyChange (lastQty currentQty : Option ℚ) : Bool :=
  match lastQty, currentQty with
  | some l, some c => decide (|c - l| > max 1 (l * (1 / 100)))
  | _, _ => false

/-- Insertion into a JS `Map` keyed by position id: an existing key keeps
its place and takes the new value, a new key is appended. -/
def jsMapInsert (m : List (String × Position)) (p : Position) : List (String × Position) :=
  if m.any (fun e => e.1 == p.id) then
    m.map (fun e => if e.1 == p.id then (e.1, p) else e)
  else m ++ [(p.id, p)]

/-- The JS `new Map(positions.map(p => [p.id, p]))`: id-keyed entries in
first-insertion order with last-write-wins values. -/
def jsMapOf (ps : List Position) : List (String × Position) := ps.foldl jsMapInsert []

/-- The JS `map.get(id)` (with `map.has(id) = (jsMapGet m id).isSome`). -/
def jsMapGet (m : List (String × Position)) (i : String) : Option Position :=
  (m.find? (fun e => e.1 == i)).map (fun e => e.2)

/-- Condition 1 of `detectChanges`: position count mismatch. -/
def countMismatch (last cur : TradingStatus) : Bool :=
  cur.openPositions.length != last.openPositions.length

/-- Condition 2 of `detectChanges`: some current id absent from the
previous snapshot. -/
def addedHit (last cur : TradingStatus) : Bool :=
  (jsMapOf cur.openPositions).any
    (fun e => (jsMapGet (jsMapOf last.openPositions) e.1).isNone)

/-- Condition 3 of `detectChanges`: some id present in both snapshots with
a material quantity change. -/
def qtyHit (last cur : TradingStatus) : Bool :=
  (jsMapOf cur.openPositions).any (fun e =>
    match jsMapGet (jsMapOf last.openPositions) e.1 with
    | some lastPos => materialQtyChange lastPos.quantity e.2.quantity
    | none => false)

/-- Condition 4 of `detectChanges`: some previous id absent from the
current snapshot. -/
def removedHit (last cur : TradingStatus) : Bool :=
  (jsMapOf last.openPositions).any
    (fun e => (jsMapGet (jsMapOf cur.openPositions) e.1).isNone)

/-- Condition 5 of `detectChanges`: aggregate total-value drift
(`Math.abs(currentValue - lastValue) / Math.max(lastValue, 0.01) > 0.01`);
false when either total parses to NaN. -/
def driftHit (last cur : TradingStatus) : Bool :=
  match last.totalValue, cur.totalValue with
  | some l, some c => decide (|c - l| / max l (1 / 100) > 1 / 100)
  | _, _ => false

/-- `AccountMonitor.detectChanges`, translated with the early returns of
the source folded into nested conditionals: absent previous snapshot,
count mismatch, then one pass over the current-id map checking per id
first for a new id and then for a material quantity change, then a pass
over the previous-id map for removed ids, then aggregate drift. -/
def detectChanges (lastStatus : Option TradingStatus) (status : TradingStatus) : Bool :=
  match lastStatus with
  | none => true
  | some last =>
    if status.openPositions.length != last.openPositions.length then true
    else
      let currentPositionsMap := jsMapOf status.openPositions
      let lastPositionsMap := jsMapOf last.openPositions
      if currentPositionsMap.any (fun e =>
          match jsMapGet lastPositionsMap e.1 with
          | none => true
          | some lastPos => materialQtyChange lastPos.quantity e.2.quantity) then true
      else if lastPositionsMap.any (fun e => (jsMapGet currentPositionsMap e.1).isNone) then true
      else driftHit last status

/-- One entry of the updated-positions list logged by
`AccountMonitor.updateStatus` (position, old quantity, new quantity). -/
structure PositionUpdate where
  position : Position
  oldQty : Option ℚ
  newQty : Option ℚ
deriving Repr, DecidableEq

/-- The three classification lists computed by `AccountMonitor.updateStatus`
when a previous snapshot exists and changes were detected. -/
structure ClassifiedChanges where
  newPositions : List Position
  updatedPositions : List PositionUpdate
  removedPositions : List Position
deriving Repr, DecidableEq

/-- Classification pass of `AccountMonitor.updateStatus` (lines 142-166):
`newPositions` filters current positions whose id has no match in the
previous snapshot, `removedPositions` the converse, and
`updatedPositions` collects every id present in both (matching by first
occurrence, as `Array.find` does) whose quantity change is material. -/
def classifyChanges (last cur : TradingStatus) : ClassifiedChanges where
  newPositions :=
    cur.openPositions.filter
      (fun p => !(last.openPositions.any (fun lp => lp.id == p.id)))
  updatedPositions :=
    cur.openPositions.filterMap (fun currentPos =>
      match last.openPositions.find? (fun lp => lp.id == currentPos.id) with
      | some lastPos =>
        if materialQtyChange lastPos.quantity currentPos.quantity then
          some ⟨currentPos, lastPos.quantity, currentPos.quantity⟩
        else none
      | none => none)
  removedPositions :=
    last.openPositions.filter
      (fun lp => !(cur.openPositions.any (fun p => p.id == lp.id)))

/-- `AccountMonitor.getStatus`: the positions fetch is run through
`Promise.allSettled`, so a rejected fetch never throws; it is replaced by
an empty `UserPositions` object with `totalValue` the string "0", and the
snapshot is built from whichever object resulted. -/
def getStatus (targetAddress now : String)
    (fetchResult : Except String UserPositions) : TradingStatus :=
  match fetchResult with
  | .ok positions =>
    { user := targetAddress
      totalPositions := positions.positions.length
      totalValue := positions.totalValue
      openPositions := positions.positions
      lastUpdated := now }
  | .error _ =>
    { user := targetAddress
      totalPositions := 0
      totalValue := some 0
      openPositions := []
      lastUpdated := now }

/-- Observable outcome of one `AccountMonitor.updateStatus` tick. -/
structure TickResult where
  status : TradingStatus
  hasChanges : Bool
  classified : Option ClassifiedChanges
  newLastStatus : Option TradingStatus
  onUpdateCalled : Bool
  onErrorCalled : Bool
deriving Repr, DecidableEq

/-- `AccountMonitor.updateStatus`: build the snapshot (fetch failures
already recovered inside `getStatus`), run detection, and when changes are
seen or no previous snapshot exists, compute the classification lists
(only when a previous snapshot exists and changes were seen), store the
new snapshot, and invoke `onUpdate`; a throwing `onUpdate` observer is the
only step of the modelled tick that can reach the catch handler, which
invokes `onError` (the snapshot replacement happens before the callback
and is not rolled back). -/
def updateStatus (lastStatus : Option TradingStatus) (targetAddress now : String)
    (fetchResult : Except String UserPositions) (onUpdateThrows : Bool) : TickResult :=
  let status := getStatus targetAddress now fetchResult
  let hasChanges := detectChanges lastStatus status
  if hasChanges || lastStatus.isNone then
    let classified :=
      match lastStatus with
      | some last => if hasChanges then some (classifyChanges last status) else none
      | none => none
    { status := status
      hasChanges := hasChanges
      classified := classified
      newLastStatus := some status
      onUpdateCalled := true
      onErrorCalled := onUpdateThrows }
  else
    { status := status
      hasChanges := hasChanges
      classified := none
      newLastStatus := lastStatus
      onUpdateCalled := false
      onErrorCalled := false }

/-! ## API client normalization (src/api/polymarket-client.ts) -/

/-- One untyped upstream position record, restricted to the fields
`normalizePositions` and `calculatePositionValue` read.  Identifier-like and
label-like fields are strings or absent upstream; numeric-like fields can be
numbers, numeric strings, `null` or absent, so they are kept as `JVal`.
The market-metadata fields feed only the display-oriented `market` object
and are omitted. -/
structure RawItem where
  asset : Option String
  id : Option String
  positionId : Option String
  outcome : Option String
  outcomeToken : Option String
  size : JVal
  quantity : JVal
  curPrice : JVal
  currentPrice : JVal
  avgPrice : JVal
  price : JVal
  lastPrice : JVal
  currentValue : JVal
  initialValue : JVal
deriving Repr, DecidableEq

/-- The JS `a || b` fallback on string-typed fields (absent or empty falls
through). -/
def strOr (a : Option String) (b : String) : String :=
  match a with
  | some s => if s = "" then b else s
  | none => b

/-- `PolymarketClient.calculatePositionValue`: quantity times price from
the `quantity`/`size` and `price`/`lastPrice` fields (note the reversed
key priority relative to the main path), `toFixed(6)`, with the string "0"
when the product is NaN; by parse semantics the result is never NaN. -/
def calculatePositionValue (item : RawItem) : Option ℚ :=
  let quantity := jsParseFloat (jsOr item.quantity (jsOr item.size (.str "0")))
  let price := jsParseFloat (jsOr item.price (jsOr item.lastPrice (.str "0")))
  match qmulN quantity price with
  | some v => some (jsToFixed 6 v)
  | none => some 0

/-- Body of the `PolymarketClient.normalizePositions` map: normalization of
one upstream record into a `Position` (values by parse semantics). -/
def normalizeItem (item : RawItem) : Position :=
  let size := jsParseFloat (jsOr item.size (jsOr item.quantity (.str "0")))
  let curPrice := jsParseFloat (jsOr item.curPrice (jsOr item.currentPrice (.str "0")))
  let avgPrice := jsParseFloat (jsOr item.avgPrice (jsOr item.price (.str "0")))
  let currentValue : Option ℚ :=
    if item.currentValue ≠ .undefined ∧ item.currentValue ≠ .jsNull ∧
        item.currentValue ≠ .num 0 then
      jsParseFloat item.currentValue
    else if nGtZero curPrice && nGtZero size then
      qmulN size curPrice
    else if item.initialValue ≠ .undefined ∧ item.initialValue ≠ .jsNull ∧
        nGtZero (jsToNumber item.initialValue) then
      jsParseFloat item.initialValue
    else if nGtZero avgPrice && nGtZero size then
      qmulN size avgPrice
    else
      calculatePositionValue item
  let displayPrice : Option ℚ :=
    if nGtZero curPrice then curPrice
    else if nGtZero avgPrice then avgPrice
    else some 0
  let initialValue : Option (Option ℚ) :=
    if item.initialValue ≠ .undefined ∧ item.initialValue ≠ .jsNull then
      some (jsParseFloat item.initialValue)
    else if nGtZero avgPrice && nGtZero size then
      some (qmulN size avgPrice)
    else none
  { id := strOr item.asset (strOr item.id (strOr item.positionId ""))
    outcome := strOr item.outcome (strOr item.outcomeToken "")
    quantity := size
    price := displayPrice
    value := currentValue
    initialValue := initialValue
    timestamp := "" }

/-- `PolymarketClient.normalizePositions`: drop `null` records, normalize
the rest. -/
def normalizePositions (data : List (Option RawItem)) : List Position :=
  (data.filterMap id).map normalizeItem

/-- `PolymarketClient.calculateTotalValue`: left fold of the parsed `value`
fields (NaN contributing 0), rendered with `toFixed(6)`. -/
def calculateTotalValue (positions : List Position) : String :=
  jsToFixedStr 6 (positions.foldl (fun sum pos => sum + (pos.value.getD 0)) 0)

/-- Resolution priority for the normalized current value as the
specification words it, for comparison with `normalizeItem`: (a) the
explicit upstream current value when it is non-zero, else (b) quantity
times current price whenever current price is positive, else (c) the
explicit initial value when positive, else (d) quantity times
average/entry price, else (e) zero. -/
def specCurrentValue (item : RawItem) : Option ℚ :=
  let qty := jsParseFloat (jsOr item.size (jsOr item.quantity (.str "0")))
  let cp := jsParseFloat (jsOr item.curPrice (jsOr item.currentPrice (.str "0")))
  let ap := jsParseFloat (jsOr item.avgPrice (jsOr item.price (.str "0")))
  let cv := jsToNumber item.currentValue
  let iv := jsToNumber item.initialValue
  if (match cv with | some v => v != 0 | none => false) then cv
  else if nGtZero cp then qmulN qty cp
  else if nGtZero iv then iv
  else
    match qmulN qty ap with
    | some v => some v
    | none => some 0

/-! ## Trade executor (src/trading/trade-executor.ts) -/

/-- Executor configuration after constructor defaulting.  `maxPositionSize`
and `maxTradeSize` default to `Infinity`, modelled as `none`; all other
recognized options are finite. -/
structure TradeConfig where
  dryRun : Bool
  positionSizeMultiplier : ℚ
  maxPositionSize : Option ℚ
  maxTradeSize : Option ℚ
  minTradeSize : ℚ
deriving Repr, DecidableEq

/-- Error messages produced by the executor, modelled symbolically with
the quantities the source interpolates into the message text. -/
inductive ExecError where
  | missingTokenId
  | belowMinimum (tradeValue : Option ℚ) (minSize : ℚ)
  | exceedsMaximum (tradeValue : Option ℚ) (maxSize : Option ℚ)
  | positionTooLarge (positionValue : Option ℚ) (maxSize : Option ℚ)
  | initFailed (msg : String)
  | gatewayFailed (msg : String)
  | callbackThrew (msg : String)
deriving Repr, DecidableEq

/-- `TradeExecutionResult` of the source; `executedQuantity` and
`executedPrice` are optional `toFixed(4)` strings (outer `Option` is field
presence, inner is parse semantics). -/
structure TradeExecutionResult where
  success : Bool
  position : Position
  orderId : Option String
  executedQuantity : Option (Option ℚ)
  executedPrice : Option (Option ℚ)
  error : Option ExecError
  dryRun : Bool
deriving Repr, DecidableEq

/-- Observer-callback invocations recorded during one executor call. -/
inductive ExecEvent where
  | tradeExecuted (result : TradeExecutionResult)
  | tradeError (e : ExecError) (positionId : String)
deriving Repr, DecidableEq

/-- Behaviour of the executor collaborators during one call: outcome of
`createOrDeriveApiKey`, outcome of `createAndPostOrder` (the order id on
success), and whether each configured observer callback throws. -/
structure ExecEnv where
  initOutcome : Except String Unit
  orderOutcome : Except String String
  onTradeExecutedThrows : Option String
  onTradeErrorThrows : Option String
deriving Repr

/-- Mutable state of one executor call: the result object under
construction, the callback events so far, the `apiKeyCreated` flag, and
whether the order gateway was called. -/
structure ExecState where
  result : TradeExecutionResult
  events : List ExecEvent
  apiKeyCreated : Bool
  gatewayCalled : Bool
deriving Repr, DecidableEq

/-- Invocation of the configured `onTradeError` callback; a throwing
callback raises inside the enclosing `try`. -/
def fireTradeError (env : ExecEnv) (e : ExecError) (pid : String) (st : ExecState) :
    Except (ExecError × ExecState) ExecState :=
  let st1 := { st with events := st.events ++ [.tradeError e pid] }
  match env.onTradeErrorThrows with
  | some m => .error (.callbackThrew m, st1)
  | none => .ok st1

/-- Invocation of the configured `onTradeExecuted` callback; a throwing
callback raises inside the enclosing `try`. -/
def fireTradeExecuted (env : ExecEnv) (st : ExecState) :
    Except (ExecError × ExecState) ExecState :=
  let st1 := { st with events := st.events ++ [.tradeExecuted st.result] }
  match env.onTradeExecutedThrows with
  | some m => .error (.callbackThrew m, st1)
  | none => .ok st1

/-- `TradeExecutor.initialize`: immediate return in dry-run mode, otherwise
`createOrDeriveApiKey`, rethrown with a wrapping message on failure;
returns the new `apiKeyCreated` flag. -/
def initializeExecutor (cfg : TradeConfig) (env : ExecEnv) (apiKeyCreated : Bool) :
    Except String Bool :=
  if cfg.dryRun then .ok apiKeyCreated
  else
    match env.initOutcome with
    | .ok _ => .ok true
    | .error m => .error ("Failed to initialize trade executor: " ++ m)

/-- Fresh result object built at the top of `executeBuy`/`executeSell`. -/
def initialResult (cfg : TradeConfig) (position : Position) : TradeExecutionResult :=
  { success := false
    position := position
    orderId := none
    executedQuantity := none
    executedPrice := none
    error := none
    dryRun := cfg.dryRun }

/-- Try-block of `TradeExecutor.executeBuy`: token-id check, sizing, the
three guards in source order (minimum trade size, maximum trade size,
maximum position size), then the dry-run or live path.  A thrown error
carries the state at the throw point so the catch handler can finish the
mutated result object. -/
def tryExecuteBuy (cfg : TradeConfig) (env : ExecEnv) (apiKeyCreated : Bool)
    (position : Position) : Except (ExecError × ExecState) ExecState :=
  let st0 : ExecState := ⟨initialResult cfg position, [], apiKeyCreated, false⟩
  if position.id = "" then .error (.missingTokenId, st0)
  else
    let tradeQuantity := qmulN position.quantity (some cfg.positionSizeMultiplier)
    let tradePrice := position.price
    let tradeValue := qmulN tradeQuantity tradePrice
    if nLt tradeValue cfg.minTradeSize then
      let e := ExecError.belowMinimum tradeValue cfg.minTradeSize
      fireTradeError env e position.id
        { st0 with result := { st0.result with error := some e } }
    else if nGtOpt tradeValue cfg.maxTradeSize then
      let e := ExecError.exceedsMaximum tradeValue cfg.maxTradeSize
      fireTradeError env e position.id
        { st0 with result := { st0.result with error := some e } }
    else
      let positionValue := qmulN position.value (some cfg.positionSizeMultiplier)
      if nGtOpt positionValue cfg.maxPositionSize then
        let e := ExecError.positionTooLarge positionValue cfg.maxPositionSize
        fireTradeError env e position.id
          { st0 with result := { st0.result with error := some e } }
      else if cfg.dryRun then
        fireTradeExecuted env
          { st0 with
            result := { st0.result with
              success := true
              executedQuantity := some (jsToFixedN 4 tradeQuantity)
              executedPrice := some (jsToFixedN 4 tradePrice) } }
      else
        match (if !apiKeyCreated then initializeExecutor cfg env apiKeyCreated
               else .ok apiKeyCreated) with
        | .error m => .error (.initFailed m, st0)
        | .ok ak1 =>
          let st1 := { st0 with apiKeyCreated := ak1, gatewayCalled := true }
          match env.orderOutcome with
          | .error m => .error (.gatewayFailed m, st1)
          | .ok orderId =>
            fireTradeExecuted env
              { st1 with
                result := { st1.result with
                  success := true
                  orderId := some orderId
                  executedQuantity := some (jsToFixedN 4 tradeQuantity)
                  executedPrice := some (jsToFixedN 4 tradePrice) } }

/-- Try-block of `TradeExecutor.executeSell`: token-id check and sizing
only — the source applies no size guards on the sell path — then the
dry-run or live path. -/
def tryExecuteSell (cfg : TradeConfig) (env : ExecEnv) (apiKeyCreated : Bool)
    (position : Position) : Except (ExecError × ExecState) ExecState :=
  let st0 : ExecState := ⟨initialResult cfg position, [], apiKeyCreated, false⟩
  if position.id = "" then .error (.missingTokenId, st0)
  else
    let tradeQuantity := qmulN position.quantity (some cfg.positionSizeMultiplier)
    let tradePrice := position.price
    if cfg.dryRun then
      fireTradeExecuted env
        { st0 with
          result := { st0.result with
            success := true
            executedQuantity := some (jsToFixedN 4 tradeQuantity)
            executedPrice := some (jsToFixedN 4 tradePrice) } }
    else
      match (if !apiKeyCreated then initializeExecutor cfg env apiKeyCreated
             else .ok apiKeyCreated) with
      | .error m => .error (.initFailed m, st0)
      | .ok ak1 =>
        let st1 := { st0 with apiKeyCreated := ak1, gatewayCalled := true }
        match env.orderOutcome with
        | .error m => .error (.gatewayFailed m, st1)
        | .ok orderId =>
          fireTradeExecuted env
            { st1 with
              result := { st1.result with
                success := true
                orderId := some orderId
                executedQuantity := some (jsToFixedN 4 tradeQuantity)
                executedPrice := some (jsToFixedN 4 tradePrice) } }

/-- Observable outcome of one executor call.  `outcome` is `.error` only
when the call itself rejects (which the source allows only when the
`onTradeError` callback throws inside the catch handler). -/
structure ExecOutcome where
  outcome : Except String TradeExecutionResult
  events : List ExecEvent
  apiKeyCreated : Bool
  gatewayCalled : Bool
deriving Repr

/-- Catch handler shared by `executeBuy` and `executeSell` (lines 152-158
and 221-227): set `result.error` to the caught message — the `success`
flag keeps whatever value it had at the throw point — invoke
`onTradeError`, and return the result; a throw from `onTradeError` itself
escapes the method. -/
def execCatch (env : ExecEnv) (positionId : String)
    (thrown : ExecError × ExecState) : ExecOutcome :=
  let r := { thrown.2.result with error := some thrown.1 }
  let events := thrown.2.events ++ [.tradeError thrown.1 positionId]
  match env.onTradeErrorThrows with
  | some m => ⟨.error m, events, thrown.2.apiKeyCreated, thrown.2.gatewayCalled⟩
  | none => ⟨.ok r, events, thrown.2.apiKeyCreated, thrown.2.gatewayCalled⟩

/-- `TradeExecutor.executeBuy`: the try-block with its catch handler. -/
def executeBuy (cfg : TradeConfig) (env : ExecEnv) (apiKeyCreated : Bool)
    (position : Position) : ExecOutcome :=
  match tryExecuteBuy cfg env apiKeyCreated position with
  | .ok st => ⟨.ok st.result, st.events, st.apiKeyCreated, st.gatewayCalled⟩
  | .error thrown => execCatch env position.id thrown

/-- `TradeExecutor.executeSell`: the try-block with its catch handler. -/
def executeSell (cfg : TradeConfig) (env : ExecEnv) (apiKeyCreated : Bool)
    (position : Position) : ExecOutcome :=
  match tryExecuteSell cfg env apiKeyCreated position with
  | .ok st => ⟨.ok st.result, st.events, st.apiKeyCreated, st.gatewayCalled⟩
  | .error thrown => execCatch env position.id thrown

/-! ## Helper lemmas -/

/-- Splitting a single `any` pass over a pointwise disjunction. -/
theorem list_any_or {α : Type} (l : List α) (p q : α → Bool) :
    l.any (fun a => p a || q a) = (l.any p || l.any q) := by
  induction l with
  | nil => simp
  | cons h t ih => simp [List.any_cons, ih, Bool.or_assoc, Bool.or_left_comm]

/-- Accumulating left fold of a projection is the sum of the projections. -/
theorem foldl_add_eq {α : Type} (f : α → ℚ) (l : List α) (init : ℚ) :
    l.foldl (fun s x => s + f x) init = init + (l.map f).sum := by
  induction l generalizing init with
  | nil => simp
  | cons h t ih => simp [ih, add_assoc]

/-- The interleaved current-map pass of `detectChanges` splits into the
new-id existence check followed by the material-quantity existence check. -/
theorem curPass_split (last cur : TradingStatus) :
    ((jsMapOf cur.openPositions).any (fun e =>
      match jsMapGet (jsMapOf last.openPositions) e.1 with
      | none => true
      | some lastPos => materialQtyChange lastPos.quantity e.2.quantity)) =
    (addedHit last cur || qtyHit last cur) := by
  unfold addedHit qtyHit
  rw [← list_any_or]
  congr 1
  funext e
  cases h : jsMapGet (jsMapOf last.openPositions) e.1 <;> simp [h]

/-- The detector verdict is exactly the ordered disjunction of the five
conditions: count mismatch, per-id additions, per-id quantity deltas,
per-id removals, aggregate value drift. -/
theorem detectChanges_eq_disj (last cur : TradingStatus) :
    detectChanges (some last) cur =
      (countMismatch last cur || addedHit last cur || qtyHit last cur ||
        removedHit last cur || driftHit last cur) := by
  have h1 : detectChanges (some last) cur =
      (if countMismatch last cur then true
       else if (addedHit last cur || qtyHit last cur) then true
       else if removedHit last cur then true
       else driftHit last cur) := by
    rw [← curPass_split last cur]
    rfl
  rw [h1]
  cases countMismatch last cur <;> cases addedHit last cur <;> cases qtyHit last cur <;>
    cases removedHit last cur <;> simp

/-! ## Fixtures -/

/-- Minimal normalized position with a given id and parsed quantity. -/
def mkPos (i : String) (q : ℚ) : Position :=
  { id := i, outcome := "", quantity := some q, price := none, value := none,
    initialValue := none, timestamp := "" }

/-- Snapshot holding exactly one position and a given parsed total value. -/
def oneStatus (i : String) (q v : ℚ) : TradingStatus :=
  { user := "", totalPositions := 1, totalValue := some v,
    openPositions := [mkPos i q], lastUpdated := "" }

/-- Snapshot with no positions and a given parsed total value. -/
def emptyStatus (v : ℚ) : TradingStatus :=
  { user := "", totalPositions := 0, totalValue := some v,
    openPositions := [], lastUpdated := "" }

/-- Previous snapshot with one open position, used as a concrete input. -/
def lastOne : TradingStatus :=
  { user := "0xtarget", totalPositions := 1, totalValue := some 50,
    openPositions := [mkPos "T1" 100], lastUpdated := "t0" }

/-- Fetch result holding one position with an id absent from `lastOne`. -/
def upTwo : UserPositions :=
  { user := "0xtarget", positions := [mkPos "T2" 5], totalValue := some 1,
    timestamp := "t1" }

/-! ## C5: per-position quantity threshold -/

/-- C5.  For a position present in both snapshots with previous parsed
quantity `q` and current parsed quantity `qq` (and no other difference
between the snapshots), the detector reports a change iff
`|qq - q| > max 1 (q * 0.01)`; a change of exactly the threshold is not
material, and one unit above the threshold is material. -/
theorem quantity_threshold (i : String) (q qq v : ℚ) :
    (detectChanges (some (oneStatus i q v)) (oneStatus i qq v) = true ↔
      |qq - q| > max 1 (q * (1 / 100)))
    ∧ (qq = q + max 1 (q * (1 / 100)) →
        detectChanges (some (oneStatus i q v)) (oneStatus i qq v) = false)
    ∧ (qq = q + max 1 (q * (1 / 100)) + 1 →
        detectChanges (some (oneStatus i q v)) (oneStatus i qq v) = true) := by
  have hM : (0 : ℚ) ≤ max 1 (q * (1 / 100)) :=
    le_trans zero_le_one (le_max_left _ _)
  have hd : detectChanges (some (oneStatus i q v)) (oneStatus i qq v) =
      materialQtyChange (some q) (some qq) := by
    rw [detectChanges_eq_disj]
    simp [countMismatch, addedHit, qtyHit, removedHit, driftHit, oneStatus, mkPos,
      jsMapOf, jsMapInsert, jsMapGet, List.find?, materialQtyChange]
  refine ⟨?_, ?_, ?_⟩
  · rw [hd]
    simp [materialQtyChange]
  · intro h
    subst h
    rw [hd]
    simp only [materialQtyChange, decide_eq_false_iff_not, not_lt]
    rw [show q + max 1 (q * (1 / 100)) - q = max 1 (q * (1 / 100)) by ring,
      abs_of_nonneg hM]
  · intro h
    subst h
    rw [hd]
    simp only [materialQtyChange, decide_eq_true_eq]
    rw [show q + max 1 (q * (1 / 100)) + 1 - q = max 1 (q * (1 / 100)) + 1 by ring,
      abs_of_nonneg (by linarith)]
    linarith

/-- Instance of `quantity_threshold` at concrete inputs: with previous
quantity 100 the threshold is `max 1 1 = 1`, so a move to 103 is material
and a move to exactly 101 is not. -/
theorem quantity_threshold_check :
    detectChanges (some (oneStatus "T1" 100 5)) (oneStatus "T1" 103 5) = true ∧
    detectChanges (some (oneStatus "T1" 100 5)) (oneStatus "T1" 101 5) = false := by
  constructor
  · exact (quantity_threshold "T1" 100 103 5).1.mpr (by norm_num)
  · exact (quantity_threshold "T1" 100 101 5).2.1
      (by rw [show (100 : ℚ) * (1 / 100) = 1 by norm_num, max_self]; norm_num)

/-! ## C6: aggregate total-value drift -/

/-- C6.  When no other condition fires (no count mismatch, no per-id
addition, no material per-id quantity change, no per-id removal), the
detector reports a change iff
`|vv - v| / max v 0.01 > 0.01`; a drift of exactly one percent of a
previous total above one cent is not material, and any strictly larger
drift is material. -/
theorem aggregate_drift (last cur : TradingStatus) (v vv d : ℚ)
    (hcount : countMismatch last cur = false)
    (hadd : addedHit last cur = false)
    (hqty : qtyHit last cur = false)
    (hrem : removedHit last cur = false)
    (hlv : last.totalValue = some v)
    (hcv : cur.totalValue = some vv) :
    (detectChanges (some last) cur = true ↔ |vv - v| / max v (1 / 100) > 1 / 100)
    ∧ (1 / 100 < v → vv = v + v * (1 / 100) → detectChanges (some last) cur = false)
    ∧ (1 / 100 < v → 0 < d → vv = v + v * (1 / 100) + d →
        detectChanges (some last) cur = true) := by
  have hd : detectChanges (some last) cur = driftHit last cur := by
    rw [detectChanges_eq_disj, hcount, hadd, hqty, hrem]
    simp
  have hdrift : driftHit last cur = decide (|vv - v| / max v (1 / 100) > 1 / 100) := by
    simp [driftHit, hlv, hcv]
  refine ⟨?_, ?_, ?_⟩
  · rw [hd, hdrift]
    simp
  · intro hv h
    subst h
    rw [hd, hdrift]
    have hmax : max v (1 / 100) = v := max_eq_left (le_of_lt hv)
    have hv0 : (0 : ℚ) < v := lt_trans (by norm_num) hv
    rw [show v + v * (1 / 100) - v = v * (1 / 100) by ring, hmax,
      abs_of_nonneg (by positivity)]
    simp only [decide_eq_false_iff_not, not_lt]
    rw [mul_comm, mul_div_assoc, div_self (ne_of_gt hv0), mul_one]
  · intro hv hdpos h
    subst h
    rw [hd, hdrift]
    have hmax : max v (1 / 100) = v := max_eq_left (le_of_lt hv)
    have hv0 : (0 : ℚ) < v := lt_trans (by norm_num) hv
    rw [show v + v * (1 / 100) + d - v = v * (1 / 100) + d by ring, hmax,
      abs_of_nonneg (by positivity)]
    simp only [decide_eq_true_eq]
    rw [add_div, mul_comm, mul_div_assoc, div_self (ne_of_gt hv0), mul_one]
    have : 0 < d / v := div_pos hdpos hv0
    linarith

/-- Instance of `aggregate_drift` at concrete inputs: two empty snapshots
whose totals move from 1 to 2 (a 100 percent drift) trigger the detector. -/
theorem aggregate_drift_check :
    detectChanges (some (emptyStatus 1)) (emptyStatus 2) = true := by
  refine (aggregate_drift (emptyStatus 1) (emptyStatus 2) 1 2 0 rfl rfl rfl rfl rfl rfl).1.mpr ?_
  rw [show max (1 : ℚ) (1 / 100) = 1 from max_eq_left (by norm_num)]
  norm_num

/-! ## C7: bootstrap tick -/

/-- C7 counterexample.  On the bootstrap tick (no previous snapshot) the
source skips the classification pass entirely — the lists are computed
only under `this.lastStatus && hasChanges` — so with a non-empty current
snapshot the tick yields no classification at all, and in particular not
the added-equals-all-current classification the claim requires. -/
theorem bootstrap_no_added_list_cex :
    (updateStatus none "0xtarget" "t1" (.ok upTwo) false).classified = none ∧
    (updateStatus none "0xtarget" "t1" (.ok upTwo) false).classified ≠
      some ⟨(getStatus "0xtarget" "t1" (.ok upTwo)).openPositions, [], []⟩ ∧
    (getStatus "0xtarget" "t1" (.ok upTwo)).openPositions = [mkPos "T2" 5] := by
  refine ⟨?_, ?_, ?_⟩
  · simp [updateStatus, detectChanges]
  · simp [updateStatus, detectChanges]
  · simp [getStatus, upTwo]

/-- C7 (amended).  Whenever no previous snapshot exists, detection always
reports a change and the tick stores and publishes the full current
snapshot via `onUpdate`, but no added/updated/removed classification is
computed on the bootstrap tick (the classification lists are only
produced when a previous snapshot exists). -/
theorem bootstrap_tick (a n : String) (fetchResult : Except String UserPositions) :
    (updateStatus none a n fetchResult false).hasChanges = true ∧
    (updateStatus none a n fetchResult false).classified = none ∧
    (updateStatus none a n fetchResult false).newLastStatus =
      some (getStatus a n fetchResult) ∧
    (updateStatus none a n fetchResult false).onUpdateCalled = true ∧
    (updateStatus none a n fetchResult false).onErrorCalled = false := by
  refine ⟨?_, ?_, ?_, ?_, ?_⟩ <;> simp [updateStatus, detectChanges]

/-! ## C1: fetch failure handling -/

/-- C1 counterexample.  With a previous snapshot holding one position, a
tick whose fetch rejects does not retain the previous snapshot: the
substituted empty snapshot (zero positions, total value 0) passes change
detection via the count mismatch and replaces `lastStatus`, and `onError`
is never invoked for the rejection. -/
theorem fetch_failure_wipes_snapshot_cex :
    (updateStatus (some lastOne) "0xtarget" "t1" (.error "network error") false).newLastStatus
      ≠ some lastOne ∧
    (updateStatus (some lastOne) "0xtarget" "t1" (.error "network error") false).onErrorCalled
      = false ∧
    (updateStatus (some lastOne) "0xtarget" "t1"
      (.error "network error") false).status.openPositions = [] := by
  refine ⟨?_, ?_, ?_⟩ <;>
    simp [updateStatus, detectChanges, getStatus, lastOne, TradingStatus.mk.injEq]

/-- C1 (amended).  On a tick whose position fetch rejects, `getStatus`
substitutes an empty snapshot (no positions, total value 0) and the tick
proceeds normally: when the previous snapshot had any positions, the
count mismatch makes detection fire, the empty snapshot replaces the
retained snapshot and is published via `onUpdate`, and `onError` is not
invoked for the rejection. -/
theorem fetch_failure_substitutes_empty (last : TradingStatus) (a n e : String)
    (h : last.openPositions ≠ []) :
    (updateStatus (some last) a n (.error e) false).status.openPositions = [] ∧
    (updateStatus (some last) a n (.error e) false).status.totalValue = some 0 ∧
    (updateStatus (some last) a n (.error e) false).hasChanges = true ∧
    (updateStatus (some last) a n (.error e) false).newLastStatus =
      some (getStatus a n (.error e)) ∧
    (updateStatus (some last) a n (.error e) false).onUpdateCalled = true ∧
    (updateStatus (some last) a n (.error e) false).onErrorCalled = false := by
  have hlen : last.openPositions.length ≠ 0 := by
    simpa [List.length_eq_zero] using h
  have hd : detectChanges (some last) (getStatus a n (.error e)) = true := by
    rw [detectChanges_eq_disj]
    have hc : countMismatch last (getStatus a n (.error e)) = true := by
      simp [countMismatch, getStatus]
      omega
    simp [hc]
  simp only [getStatus] at hd
  refine ⟨?_, ?_, ?_, ?_, ?_, ?_⟩ <;> simp [updateStatus, getStatus, hd]

/-- Instance of `fetch_failure_substitutes_empty` at a concrete previous
snapshot with one open position. -/
theorem fetch_failure_substitutes_empty_check :
    (updateStatus (some lastOne) "0xa" "t2" (.error "boom") false).hasChanges = true ∧
    (updateStatus (some lastOne) "0xa" "t2" (.error "boom") false).onErrorCalled = false :=
  ⟨(fetch_failure_substitutes_empty lastOne "0xa" "t2" "boom"
      (by simp [lastOne])).2.2.1,
   (fetch_failure_substitutes_empty lastOne "0xa" "t2" "boom"
      (by simp [lastOne])).2.2.2.2.2⟩

/-! ## C2: evaluation order and full classification -/

/-- C2.  The detector verdict equals the ordered disjunction count
mismatch, per-id additions, per-id quantity deltas, per-id removals,
aggregate value drift (any single hit suffices); and whenever the verdict
is true the tick computes all three classification lists in full: the
added and removed lists contain exactly the positions whose id is missing
from the other snapshot, every materially resized position present in
both snapshots appears in the updated list, and the tick publishes the
complete classification. -/
theorem detect_order_and_full_classification (last cur : TradingStatus) :
    (detectChanges (some last) cur =
      (countMismatch last cur || addedHit last cur || qtyHit last cur ||
        removedHit last cur || driftHit last cur))
    ∧ (∀ p, p ∈ (classifyChanges last cur).newPositions ↔
        p ∈ cur.openPositions ∧ ∀ lp ∈ last.openPositions, lp.id ≠ p.id)
    ∧ (∀ p, p ∈ (classifyChanges last cur).removedPositions ↔
        p ∈ last.openPositions ∧ ∀ cp ∈ cur.openPositions, cp.id ≠ p.id)
    ∧ (∀ p lp, p ∈ cur.openPositions →
        last.openPositions.find? (fun x => x.id == p.id) = some lp →
        materialQtyChange lp.quantity p.quantity = true →
        (⟨p, lp.quantity, p.quantity⟩ : PositionUpdate) ∈
          (classifyChanges last cur).updatedPositions)
    ∧ (∀ a n up, detectChanges (some last) (getStatus a n (.ok up)) = true →
        (updateStatus (some last) a n (.ok up) false).classified =
          some (classifyChanges last (getStatus a n (.ok up)))) := by
  refine ⟨detectChanges_eq_disj last cur, ?_, ?_, ?_, ?_⟩
  · intro p
    simp [classifyChanges, List.mem_filter, List.any_eq_true]
  · intro p
    simp [classifyChanges, List.mem_filter, List.any_eq_true]
  · intro p lp hp hfind hmat
    refine List.mem_filterMap.mpr ⟨p, hp, ?_⟩
    simp [hfind, hmat]
  · intro a n up hdet
    simp only [updateStatus, hdet, Bool.true_or, if_true]

/-- Instance of `detect_order_and_full_classification` at concrete inputs:
a tick that replaces position T1 by position T2 publishes the full
classification. -/
theorem detect_order_check :
    (updateStatus (some lastOne) "0xtarget" "t2" (.ok upTwo) false).classified =
      some (classifyChanges lastOne (getStatus "0xtarget" "t2" (.ok upTwo))) := by
  refine (detect_order_and_full_classification lastOne lastOne).2.2.2.2 "0xtarget" "t2" upTwo ?_
  simp [detectChanges, getStatus, upTwo, lastOne, mkPos, jsMapOf, jsMapInsert, jsMapGet]

/-! ## C10: aggregate total value -/

/-- Digit characters produced by `Nat.digitChar` below 10 are decimal
digits. -/
theorem digitChar_lt_ten_isDigit : ∀ m, m < 10 → (Nat.digitChar m).isDigit = true := by
  decide

/-- Every string produced by the fixed-point renderer decomposes as an
integer part, a dot, and exactly `d` decimal digit characters. -/
theorem jsToFixedStr_parts (d : ℕ) (q : ℚ) :
    ∃ intPart frac, jsToFixedStr d q = intPart ++ "." ++ frac ∧
      frac.length = d ∧ frac.toList.all Char.isDigit = true := by
  have hcore : ∀ x : ℚ, ∃ ip fr, fixedRender d x = ip ++ "." ++ fr ∧
      fr.length = d ∧ fr.toList.all Char.isDigit = true := by
    intro x
    refine ⟨toString ((⌊x * 10 ^ d + 1 / 2⌋).toNat / 10 ^ d),
      fracDigitsStr d ((⌊x * 10 ^ d + 1 / 2⌋).toNat % 10 ^ d), rfl, ?_, ?_⟩
    · simp [fracDigitsStr, String.length]
    · simp only [fracDigitsStr, String.toList]
      rw [List.all_eq_true]
      intro c hc
      simp only [String.mk, List.mem_map] at hc
      obtain ⟨k, _, hk⟩ := hc
      subst hk
      exact digitChar_lt_ten_isDigit _ (Nat.mod_lt _ (by norm_num))
  unfold jsToFixedStr
  by_cases hq : q < 0
  · obtain ⟨ip, fr, he, hl, hd2⟩ := hcore (-q)
    exact ⟨"-" ++ ip, fr, by rw [if_pos hq, he, ← String.append_assoc, ← String.append_assoc],
      hl, hd2⟩
  · obtain ⟨ip, fr, he, hl, hd2⟩ := hcore q
    exact ⟨ip, fr, by rw [if_neg hq, he], hl, hd2⟩

/-- C10.  The aggregate `totalValue` string equals the sum over all
positions of the numeric parse of the position value (NaN contributing 0),
rendered by `toFixed(6)`; and the rendered string always carries exactly
six fraction digits. -/
theorem total_value_rendering (positions : List Position) :
    calculateTotalValue positions =
      jsToFixedStr 6 ((positions.map (fun p => p.value.getD 0)).sum) ∧
    ∃ intPart frac, calculateTotalValue positions = intPart ++ "." ++ frac ∧
      frac.length = 6 ∧ frac.toList.all Char.isDigit = true := by
  have h1 : calculateTotalValue positions =
      jsToFixedStr 6 ((positions.map (fun p => p.value.getD 0)).sum) := by
    unfold calculateTotalValue
    rw [foldl_add_eq, zero_add]
  exact ⟨h1, by rw [h1]; exact jsToFixedStr_parts 6 _⟩

/-! ## C4: current-value resolution priority -/

/-- The literal "0" fallback string parses to zero. -/
theorem strParseFloat_zero : strParseFloat "0" = some 0 := by
  simp [strParseFloat, jsSpace, takeDigits, digitsToNat, fracOfDigits, parseExponent]

/-- Numeric-or-absent upstream field. -/
def numOrUndef : Option ℚ → JVal
  | some q => .num q
  | none => .undefined

/-- Head position of the `field || secondField || "0"` chain when the
second field is absent: the field value, with both absence and an explicit
zero falling through to zero. -/
theorem parse_chain_fst (a : Option ℚ) :
    jsParseFloat (jsOr (numOrUndef a) (jsOr .undefined (.str "0"))) = some (a.getD 0) := by
  rcases a with _ | q
  · simp [numOrUndef, jsOr, jsTruthy, jsParseFloat, strParseFloat_zero]
  · by_cases h : q = 0 <;>
      simp [numOrUndef, jsOr, jsTruthy, jsParseFloat, strParseFloat_zero, h]

/-- Second position of the chain when the first field is absent. -/
theorem parse_chain_snd (a : Option ℚ) :
    jsParseFloat (jsOr .undefined (jsOr (numOrUndef a) (.str "0"))) = some (a.getD 0) := by
  rcases a with _ | q
  · simp [numOrUndef, jsOr, jsTruthy, jsParseFloat, strParseFloat_zero]
  · by_cases h : q = 0 <;>
      simp [numOrUndef, jsOr, jsTruthy, jsParseFloat, strParseFloat_zero, h]

/-- Fully absent chain: only the "0" fallback remains. -/
theorem parse_chain_none :
    jsParseFloat (jsOr .undefined (jsOr .undefined (.str "0"))) = some 0 := by
  simp [jsOr, jsTruthy, jsParseFloat, strParseFloat_zero]

/-- Upstream record with numeric-or-absent `size`, `currentValue`,
`initialValue`, `curPrice` and `avgPrice` fields and every other field
absent. -/
def mkNumItem (sz cv iv cp ap : Option ℚ) : RawItem :=
  { asset := none, id := none, positionId := none, outcome := none, outcomeToken := none,
    size := numOrUndef sz, quantity := .undefined,
    curPrice := numOrUndef cp, currentPrice := .undefined,
    avgPrice := numOrUndef ap, price := .undefined, lastPrice := .undefined,
    currentValue := numOrUndef cv, initialValue := numOrUndef iv }

/-- Upstream record with quantity 0, current price 2 and initial value 5. -/
def itemZeroQty : RawItem := mkNumItem (some 0) none (some 5) (some 2) none

/-- C4 counterexample.  For an upstream record with quantity 0, current
price 2 (positive) and initial value 5, the claimed priority picks branch
(b) and yields quantity times current price, i.e. 0, but the source
requires quantity > 0 as well as current price > 0 in branch (b) and so
falls through to the initial value 5. -/
theorem value_priority_cex :
    (normalizeItem itemZeroQty).value = some 5 ∧
    specCurrentValue itemZeroQty = some 0 ∧
    nGtZero (jsParseFloat (jsOr itemZeroQty.curPrice
      (jsOr itemZeroQty.currentPrice (.str "0")))) = true := by
  refine ⟨?_, ?_, ?_⟩
  · simp [normalizeItem, itemZeroQty, mkNumItem, numOrUndef, parse_chain_fst,
      nGtZero, jsToNumber, jsParseFloat, jsOr, jsTruthy, strParseFloat_zero, qmulN]
  · simp [specCurrentValue, itemZeroQty, mkNumItem, numOrUndef, parse_chain_fst,
      nGtZero, jsToNumber, jsParseFloat, jsOr, jsTruthy, strParseFloat_zero, qmulN]
  · simp [itemZeroQty, mkNumItem, numOrUndef, jsOr, jsTruthy, jsParseFloat, nGtZero]

/-- C4 (amended).  For a numeric-or-absent upstream record the normalized
current value resolves as: (a) the explicit upstream current value when
present and not the number 0, else (b) quantity times current price when
current price > 0 and also quantity > 0, else (c) the explicit initial
value when present and > 0, else (d) quantity times average/entry price
when both are > 0, else (e) the fallback product of the
`quantity`/`size` and `price`/`lastPrice` fields, which is 0 here since
the price-like fallback fields are absent. -/
theorem value_priority_amended (sz cv iv cp ap : Option ℚ) :
    (normalizeItem (mkNumItem sz cv iv cp ap)).value =
      (if cv ≠ none ∧ cv ≠ some 0 then cv
       else if 0 < cp.getD 0 ∧ 0 < sz.getD 0 then some (sz.getD 0 * cp.getD 0)
       else if 0 < iv.getD 0 then iv
       else if 0 < ap.getD 0 ∧ 0 < sz.getD 0 then some (sz.getD 0 * ap.getD 0)
       else some 0) := by
  have hz : jsToFixed 6 0 = 0 := by
    norm_num [jsToFixed, fixRound]
  have hcalc : calculatePositionValue (mkNumItem sz cv iv cp ap) = some 0 := by
    simp [calculatePositionValue, mkNumItem, parse_chain_snd, parse_chain_none,
      qmulN, hz]
  have hsz : (mkNumItem sz cv iv cp ap).size = numOrUndef sz := rfl
  have hqn : (mkNumItem sz cv iv cp ap).quantity = .undefined := rfl
  have hcp : (mkNumItem sz cv iv cp ap).curPrice = numOrUndef cp := rfl
  have hcpp : (mkNumItem sz cv iv cp ap).currentPrice = .undefined := rfl
  have hap : (mkNumItem sz cv iv cp ap).avgPrice = numOrUndef ap := rfl
  have hpr : (mkNumItem sz cv iv cp ap).price = .undefined := rfl
  have hcv2 : (mkNumItem sz cv iv cp ap).currentValue = numOrUndef cv := rfl
  have hiv2 : (mkNumItem sz cv iv cp ap).initialValue = numOrUndef iv := rfl
  unfold normalizeItem
  simp only [hsz, hqn, hcp, hcpp, hap, hpr, hcv2, hiv2, parse_chain_fst, hcalc]
  by_cases h1 : cv ≠ none ∧ cv ≠ some 0
  · obtain ⟨h1a, h1b⟩ := h1
    rcases cv with _ | v
    · exact absurd rfl h1a
    · have hv : v ≠ 0 := fun hh => h1b (by rw [hh])
      simp [numOrUndef, jsParseFloat, hv]
  · rw [if_neg (by
      rcases cv with _ | v <;> simp_all [numOrUndef, not_and_or]),
      if_neg h1]
    by_cases h2 : 0 < cp.getD 0 ∧ 0 < sz.getD 0
    · have : (nGtZero (some (cp.getD 0)) && nGtZero (some (sz.getD 0))) = true := by
        simp [nGtZero, h2.1, h2.2]
      rw [if_pos this, if_pos h2]
      simp [qmulN, mul_comm]
    · have : (nGtZero (some (cp.getD 0)) && nGtZero (some (sz.getD 0))) ≠ true := by
        simp only [ne_eq, nGtZero, Bool.and_eq_true, decide_eq_true_eq]
        exact h2
      rw [if_neg this, if_neg h2]
      by_cases h3 : 0 < iv.getD 0
      · rcases iv with _ | w
        · simp at h3
        · have : w > 0 := by simpa using h3
          simp [numOrUndef, jsToNumber, nGtZero, jsParseFloat, this, h3]
      · rw [if_neg (by
          rcases iv with _ | w <;>
            simp_all [numOrUndef, jsToNumber, nGtZero]), if_neg h3]
        by_cases h4 : 0 < ap.getD 0 ∧ 0 < sz.getD 0
        · have : (nGtZero (some (ap.getD 0)) && nGtZero (some (sz.getD 0))) = true := by
            simp [nGtZero, h4.1, h4.2]
          rw [if_pos this, if_pos h4]
          simp [qmulN, mul_comm]
        · have : (nGtZero (some (ap.getD 0)) && nGtZero (some (sz.getD 0))) ≠ true := by
            simp only [ne_eq, nGtZero, Bool.and_eq_true, decide_eq_true_eq]
            exact h4
          rw [if_neg this, if_neg h4]

/-! ## Executor fixtures and derived quantities -/

/-- Notional of an intent: parsed quantity times the size multiplier times
the parsed price, in the association order of the source. -/
def tradeValueOf (cfg : TradeConfig) (p : Position) : Option ℚ :=
  qmulN (qmulN p.quantity (some cfg.positionSizeMultiplier)) p.price

/-- Scaled position value checked by the maximum-position-size guard. -/
def positionValueOf (cfg : TradeConfig) (p : Position) : Option ℚ :=
  qmulN p.value (some cfg.positionSizeMultiplier)

/-- Result synthesized by the dry-run path of either executor method. -/
def dryRunResult (cfg : TradeConfig) (p : Position) : TradeExecutionResult :=
  { success := true
    position := p
    orderId := none
    executedQuantity := some (jsToFixedN 4 (qmulN p.quantity (some cfg.positionSizeMultiplier)))
    executedPrice := some (jsToFixedN 4 p.price)
    error := none
    dryRun := cfg.dryRun }

/-- Dry-run configuration with multiplier 1, minimum trade size 1 and
unbounded maxima. -/
def cfgMin1 : TradeConfig :=
  { dryRun := true, positionSizeMultiplier := 1, maxPositionSize := none,
    maxTradeSize := none, minTradeSize := 1 }

/-- Collaborators that all succeed and observers that never throw. -/
def envBenign : ExecEnv :=
  { initOutcome := .ok (), orderOutcome := .ok "order-1",
    onTradeExecutedThrows := none, onTradeErrorThrows := none }

/-- Position with notional 0.25 (quantity 0.5 at price 0.5). -/
def pSmall : Position :=
  { id := "T2", outcome := "YES", quantity := some (1 / 2), price := some (1 / 2),
    value := some (1 / 4), initialValue := none, timestamp := "" }

/-- Position with notional 50 (quantity 100 at price 0.5). -/
def pOk : Position :=
  { id := "T1", outcome := "YES", quantity := some 100, price := some (1 / 2),
    value := some 50, initialValue := none, timestamp := "" }

/-! ## C3: guard chain -/

/-- Successful dry-run sell result for `pSmall`. -/
def sellSmallExpected : TradeExecutionResult :=
  { success := true, position := pSmall, orderId := none,
    executedQuantity := some (some (1 / 2)), executedPrice := some (some (1 / 2)),
    error := none, dryRun := true }

/-- C3 counterexample.  A close (sell) intent whose notional 0.25 is below
the configured minimum trade size 1 is not rejected: `executeSell` applies
no size guards, so the dry-run sell succeeds with no error even though the
minimum-size guard condition holds. -/
theorem sell_unguarded_cex :
    executeSell cfgMin1 envBenign true pSmall =
      ⟨.ok sellSmallExpected, [.tradeExecuted sellSmallExpected], true, false⟩ ∧
    sellSmallExpected.success = true ∧ sellSmallExpected.error = none ∧
    nLt (tradeValueOf cfgMin1 pSmall) cfgMin1.minTradeSize = true := by
  have hq : jsToFixed 4 ((1 : ℚ) / 2 * 1) = 1 / 2 := by
    norm_num [jsToFixed, fixRound]
  have hp : jsToFixed 4 ((1 : ℚ) / 2) = 1 / 2 := by
    norm_num [jsToFixed, fixRound]
  refine ⟨?_, rfl, rfl, ?_⟩
  · simp [executeSell, tryExecuteSell, fireTradeExecuted, cfgMin1, envBenign, pSmall,
      initialResult, qmulN, jsToFixedN, hq, hp, sellSmallExpected]
    norm_num [jsToFixed, fixRound]
  · simp [nLt, tradeValueOf, cfgMin1, pSmall, qmulN]
    norm_num

/-- C3 (amended).  Open (buy) intents evaluate the guard chain in the
order minimum trade size, maximum trade size, maximum position size; the
first failing guard alone determines the rejection (even when later
guards are also violated), producing a failed result with that guard
error, no order identifier, no gateway call and only the failure-callback
event.  Close (sell) intents are not size-guarded at all: a dry-run sell
always succeeds once the position id is present. -/
theorem guard_chain (cfg : TradeConfig) (env : ExecEnv) (ak : Bool) (p : Position)
    (hid : p.id ≠ "") (hcbE : env.onTradeErrorThrows = none)
    (hcbX : env.onTradeExecutedThrows = none) :
    (nLt (tradeValueOf cfg p) cfg.minTradeSize = true →
      executeBuy cfg env ak p =
        ⟨.ok { initialResult cfg p with
            error := some (.belowMinimum (tradeValueOf cfg p) cfg.minTradeSize) },
          [.tradeError (.belowMinimum (tradeValueOf cfg p) cfg.minTradeSize) p.id],
          ak, false⟩)
    ∧ (nLt (tradeValueOf cfg p) cfg.minTradeSize = false →
       nGtOpt (tradeValueOf cfg p) cfg.maxTradeSize = true →
      executeBuy cfg env ak p =
        ⟨.ok { initialResult cfg p with
            error := some (.exceedsMaximum (tradeValueOf cfg p) cfg.maxTradeSize) },
          [.tradeError (.exceedsMaximum (tradeValueOf cfg p) cfg.maxTradeSize) p.id],
          ak, false⟩)
    ∧ (nLt (tradeValueOf cfg p) cfg.minTradeSize = false →
       nGtOpt (tradeValueOf cfg p) cfg.maxTradeSize = false →
       nGtOpt (positionValueOf cfg p) cfg.maxPositionSize = true →
      executeBuy cfg env ak p =
        ⟨.ok { initialResult cfg p with
            error := some (.positionTooLarge (positionValueOf cfg p) cfg.maxPositionSize) },
          [.tradeError (.positionTooLarge (positionValueOf cfg p) cfg.maxPositionSize) p.id],
          ak, false⟩)
    ∧ (cfg.dryRun = true →
      executeSell cfg env ak p =
        ⟨.ok (dryRunResult cfg p), [.tradeExecuted (dryRunResult cfg p)], ak, false⟩) := by
  unfold tradeValueOf positionValueOf
  refine ⟨?_, ?_, ?_, ?_⟩
  · intro hmin
    simp [executeBuy, tryExecuteBuy, fireTradeError, hid, hcbE, hmin, initialResult]
  · intro hmin hmax
    simp [executeBuy, tryExecuteBuy, fireTradeError, hid, hcbE, hmin, hmax, initialResult]
  · intro hmin hmax hpos
    simp [executeBuy, tryExecuteBuy, fireTradeError, hid, hcbE, hmin, hmax, hpos,
      initialResult]
  · intro hdry
    simp [executeSell, tryExecuteSell, fireTradeExecuted, hid, hcbX, hdry,
      dryRunResult, initialResult]

/-- Instance of `guard_chain` at concrete inputs: a buy of `pSmall` under
`cfgMin1` is rejected by the minimum-size guard with no gateway call. -/
theorem guard_chain_check :
    executeBuy cfgMin1 envBenign true pSmall =
      ⟨.ok { initialResult cfgMin1 pSmall with
          error := some (.belowMinimum (tradeValueOf cfgMin1 pSmall) cfgMin1.minTradeSize) },
        [.tradeError (.belowMinimum (tradeValueOf cfgMin1 pSmall) cfgMin1.minTradeSize)
          pSmall.id], true, false⟩ := by
  refine (guard_chain cfgMin1 envBenign true pSmall (by simp [pSmall]) rfl rfl).1 ?_
  simp [nLt, tradeValueOf, cfgMin1, pSmall, qmulN]
  norm_num

/-! ## C8: dry-run execution -/

/-- Position whose quantity 1.00005 needs more than four decimal digits. -/
def pRound : Position :=
  { id := "T3", outcome := "YES", quantity := some (20001 / 20000), price := some 1,
    value := some 1, initialValue := none, timestamp := "" }

/-- C8 counterexample.  A dry-run buy of quantity 1.00005 (times
multiplier 1) reports `executedQuantity` 1.0001 — the `toFixed(4)`
rendering — which is not equal to the computed trade quantity 1.00005. -/
theorem dryrun_rounding_cex :
    (executeBuy cfgMin1 envBenign true pRound).outcome =
      .ok { success := true, position := pRound, orderId := none,
            executedQuantity := some (some (10001 / 10000)),
            executedPrice := some (some 1),
            error := none, dryRun := true } ∧
    qmulN pRound.quantity (some cfgMin1.positionSizeMultiplier) = some (20001 / 20000) ∧
    (10001 : ℚ) / 10000 ≠ 20001 / 20000 := by
  refine ⟨?_, by simp [pRound, cfgMin1, qmulN], by norm_num⟩
  have hT : ¬("T3" : String) = "" := by decide
  norm_num [executeBuy, tryExecuteBuy, fireTradeExecuted, cfgMin1, envBenign, pRound,
    initialResult, qmulN, jsToFixedN, nLt, nGtOpt, jsToFixed, fixRound, hT]

/-- C8 (amended).  A dry-run intent that passes the guard chain (trivially
for sells, which have no guards) returns `success = true`,
`dryRun = true`, no order identifier, `executedQuantity` and
`executedPrice` equal to the computed trade quantity (position quantity
times the size multiplier) and trade price each rendered by `toFixed(4)`,
and the success callback is invoked with exactly that result; the gateway
is not called. -/
theorem dryrun_conservation (cfg : TradeConfig) (env : ExecEnv) (ak : Bool) (p : Position)
    (hdry : cfg.dryRun = true) (hcbX : env.onTradeExecutedThrows = none)
    (hid : p.id ≠ "")
    (hmin : nLt (tradeValueOf cfg p) cfg.minTradeSize = false)
    (hmax : nGtOpt (tradeValueOf cfg p) cfg.maxTradeSize = false)
    (hpos : nGtOpt (positionValueOf cfg p) cfg.maxPositionSize = false) :
    executeBuy cfg env ak p =
      ⟨.ok (dryRunResult cfg p), [.tradeExecuted (dryRunResult cfg p)], ak, false⟩ ∧
    executeSell cfg env ak p =
      ⟨.ok (dryRunResult cfg p), [.tradeExecuted (dryRunResult cfg p)], ak, false⟩ ∧
    (dryRunResult cfg p).success = true ∧
    (dryRunResult cfg p).dryRun = true ∧
    (dryRunResult cfg p).orderId = none ∧
    (dryRunResult cfg p).executedQuantity =
      some (jsToFixedN 4 (qmulN p.quantity (some cfg.positionSizeMultiplier))) ∧
    (dryRunResult cfg p).executedPrice = some (jsToFixedN 4 p.price) := by
  unfold tradeValueOf at hmin hmax
  unfold positionValueOf at hpos
  refine ⟨?_, ?_, rfl, hdry, rfl, rfl, rfl⟩
  · simp [executeBuy, tryExecuteBuy, fireTradeExecuted, hid, hcbX, hdry, hmin, hmax,
      hpos, dryRunResult, initialResult]
  · simp [executeSell, tryExecuteSell, fireTradeExecuted, hid, hcbX, hdry,
      dryRunResult, initialResult]

/-- Instance of `dryrun_conservation` at concrete inputs: a dry-run buy of
`pOk` (notional 50, within bounds) synthesizes the dry-run result. -/
theorem dryrun_conservation_check :
    executeBuy cfgMin1 envBenign true pOk =
      ⟨.ok (dryRunResult cfgMin1 pOk), [.tradeExecuted (dryRunResult cfgMin1 pOk)],
        true, false⟩ :=
  (dryrun_conservation cfgMin1 envBenign true pOk rfl rfl (by simp [pOk])
    (by norm_num [nLt, tradeValueOf, pOk, cfgMin1, qmulN])
    (by simp [nGtOpt, tradeValueOf, pOk, cfgMin1, qmulN])
    (by simp [nGtOpt, positionValueOf, pOk, cfgMin1, qmulN])).1

/-! ## C9: error containment in the executor -/

/-- Collaborators that succeed but whose success callback throws. -/
def envCbThrow : ExecEnv :=
  { initOutcome := .ok (), orderOutcome := .ok "order-1",
    onTradeExecutedThrows := some "callback boom", onTradeErrorThrows := none }

/-- C9 counterexample.  When the success callback throws after a dry-run
execution already set `success = true`, the catch handler populates the
error and returns normally — but the returned result still carries
`success = true`, not the `success = false` the claim requires for every
caught error. -/
theorem callback_keeps_success_cex :
    (executeBuy cfgMin1 envCbThrow true pOk).outcome =
      .ok { success := true, position := pOk, orderId := none,
            executedQuantity := some (some 100), executedPrice := some (some (1 / 2)),
            error := some (.callbackThrew "callback boom"), dryRun := true } := by
  have hT : ¬("T1" : String) = "" := by decide
  norm_num [executeBuy, tryExecuteBuy, fireTradeExecuted, execCatch, cfgMin1,
    envCbThrow, pOk, initialResult, qmulN, jsToFixedN, nLt, nGtOpt, jsToFixed,
    fixRound, hT]

/-- C9 (amended).  Errors thrown before the success flag is set — missing
position identifier, initialization failure, gateway failure — are caught
by both executor methods: the call returns normally with `success = false`,
the error recorded, and the failure callback invoked.  An error thrown by
the success callback is likewise caught and the call returns normally with
the error recorded, but `success` keeps the value `true` it already had;
and when the failure callback itself throws inside the catch handler, the
call propagates that error instead of returning. -/
theorem executor_error_containment (cfg : TradeConfig) (ak : Bool) (p : Position)
    (m : String) :
    (∀ env : ExecEnv, env.onTradeErrorThrows = none → p.id = "" →
      executeBuy cfg env ak p =
        ⟨.ok { initialResult cfg p with error := some .missingTokenId },
          [.tradeError .missingTokenId ""], ak, false⟩)
    ∧ (∀ env : ExecEnv, env.onTradeErrorThrows = none → cfg.dryRun = false →
        ak = false → p.id ≠ "" →
        nLt (tradeValueOf cfg p) cfg.minTradeSize = false →
        nGtOpt (tradeValueOf cfg p) cfg.maxTradeSize = false →
        nGtOpt (positionValueOf cfg p) cfg.maxPositionSize = false →
        env.initOutcome = .error m →
        executeBuy cfg env ak p =
          ⟨.ok { initialResult cfg p with
              error := some (.initFailed ("Failed to initialize trade executor: " ++ m)) },
            [.tradeError (.initFailed ("Failed to initialize trade executor: " ++ m)) p.id],
            false, false⟩)
    ∧ (∀ env : ExecEnv, env.onTradeErrorThrows = none → cfg.dryRun = false →
        ak = true → p.id ≠ "" →
        nLt (tradeValueOf cfg p) cfg.minTradeSize = false →
        nGtOpt (tradeValueOf cfg p) cfg.maxTradeSize = false →
        nGtOpt (positionValueOf cfg p) cfg.maxPositionSize = false →
        env.orderOutcome = .error m →
        executeBuy cfg env ak p =
          ⟨.ok { initialResult cfg p with error := some (.gatewayFailed m) },
            [.tradeError (.gatewayFailed m) p.id], true, true⟩)
    ∧ (∀ env : ExecEnv, env.onTradeErrorThrows = none →
        env.onTradeExecutedThrows = some m → cfg.dryRun = true → p.id ≠ "" →
        nLt (tradeValueOf cfg p) cfg.minTradeSize = false →
        nGtOpt (tradeValueOf cfg p) cfg.maxTradeSize = false →
        nGtOpt (positionValueOf cfg p) cfg.maxPositionSize = false →
        executeBuy cfg env ak p =
          ⟨.ok { dryRunResult cfg p with error := some (.callbackThrew m) },
            [.tradeExecuted (dryRunResult cfg p), .tradeError (.callbackThrew m) p.id],
            ak, false⟩)
    ∧ (∀ env : ExecEnv, env.onTradeErrorThrows = none → p.id = "" →
        executeSell cfg env ak p =
          ⟨.ok { initialResult cfg p with error := some .missingTokenId },
            [.tradeError .missingTokenId ""], ak, false⟩)
    ∧ (∀ env : ExecEnv, env.onTradeErrorThrows = some m → p.id ≠ "" →
        nLt (tradeValueOf cfg p) cfg.minTradeSize = true →
        (executeBuy cfg env ak p).outcome = .error m) := by
  refine ⟨?_, ?_, ?_, ?_, ?_, ?_⟩
  · intro env hcb hid
    simp [executeBuy, tryExecuteBuy, execCatch, hcb, hid, initialResult]
  · intro env hcb hdry hak hid hmin hmax hpos hinit
    subst hak
    unfold tradeValueOf at hmin hmax
    unfold positionValueOf at hpos
    simp [executeBuy, tryExecuteBuy, execCatch, initializeExecutor, hcb, hdry, hid,
      hmin, hmax, hpos, hinit, initialResult]
  · intro env hcb hdry hak hid hmin hmax hpos hord
    subst hak
    unfold tradeValueOf at hmin hmax
    unfold positionValueOf at hpos
    simp [executeBuy, tryExecuteBuy, execCatch, initializeExecutor, hcb, hdry, hid,
      hmin, hmax, hpos, hord, initialResult]
  · intro env hcb hcx hdry hid hmin hmax hpos
    unfold tradeValueOf at hmin hmax
    unfold positionValueOf at hpos
    simp [executeBuy, tryExecuteBuy, fireTradeExecuted, execCatch, hcb, hcx, hdry,
      hid, hmin, hmax, hpos, dryRunResult, initialResult]
  · intro env hcb hid
    simp [executeSell, tryExecuteSell, execCatch, hcb, hid, initialResult]
  · intro env hcb hid hmin
    unfold tradeValueOf at hmin
    simp [executeBuy, tryExecuteBuy, fireTradeError, execCatch, hcb, hid, hmin,
      initialResult]

/-- Live configuration with multiplier 1, minimum trade size 1 and
unbounded maxima. -/
def cfgLive : TradeConfig :=
  { dryRun := false, positionSizeMultiplier := 1, maxPositionSize := none,
    maxTradeSize := none, minTradeSize := 1 }

/-- Collaborators whose order gateway rejects. -/
def envGwDown : ExecEnv :=
  { initOutcome := .ok (), orderOutcome := .error "gateway down",
    onTradeExecutedThrows := none, onTradeErrorThrows := none }

/-- Instance of `executor_error_containment` at concrete inputs: a live
buy whose gateway rejects returns a normal failed result carrying the
gateway message. -/
theorem executor_error_containment_check :
    executeBuy cfgLive envGwDown true pOk =
      ⟨.ok { initialResult cfgLive pOk with
          error := some (.gatewayFailed "gateway down") },
        [.tradeError (.gatewayFailed "gateway down") pOk.id], true, true⟩ :=
  (executor_error_containment cfgLive true pOk "gateway down").2.2.1 envGwDown
    rfl rfl rfl (by simp [pOk])
    (by norm_num [nLt, tradeValueOf, pOk, cfgLive, qmulN])
    (by simp [nGtOpt, tradeValueOf, pOk, cfgLive, qmulN])
    (by simp [nGtOpt, positionValueOf, pOk, cfgLive, qmulN])
    rfl
